import Mathlib

/-!
Verification of the CryptoDetector indicator-detection and scan-aggregation core.

The repository carries two implementations of the detection engine:
* `src/crypto-detector-web/src/lib/o365/scanner.ts` — the named file, holding the
  catalog `CRYPTO_PATTERNS`, the analyzer `analyzeCryptoMiningIndicators`
  (score normalized by `Math.round((totalWeight / 30) * 100)` capped at 100) and a
  mock `scanO365Tenant` that filters a hard-coded detection list; embedded below
  under namespace `Scanner`.
* an unnamed comprehensive implementation (`src/unnamed/part_003`), holding an
  11-rule catalog, an analyzer with `score = Math.min(100, score)` and a
  `scanO365Tenant` that fetches Exchange Online messages, analyzes each one and
  assembles detections; embedded below under namespace `Part003`.

JavaScript regular expressions (all with the `i` flag) are embedded as alternation
lists of token sequences over characters, with an explicit backtracking matcher
that mirrors the JS engine on the constructs these patterns use: case-insensitive
literals, character classes with exact repetition counts `{n}`, greedy `.*`
(not matching line terminators) and greedy `\s*`. `RegExp.test` / `String.match`
semantics: leftmost starting position wins; at one position, alternatives are
tried in source order; `match[0]` is the matched substring of the original text.

The matcher recursion is fueled; `toksSize ts + s.length + 1` strictly bounds the
recursion depth (every step shrinks `toksSize ts + s.length`), so the fuel never
runs out and the fueled function agrees with the ideal recursion.
-/

/-- ASCII lowering, the fragment of JS case folding exercised by these patterns. -/
def jsToLower (c : Char) : Char :=
  if 'A' ≤ c ∧ c ≤ 'Z' then Char.ofNat (c.toNat + 32) else c

/-- Case-insensitive character comparison (the `i` regex flag). -/
def ciEq (a b : Char) : Bool := jsToLower a == jsToLower b

/-- JS regex `.` excludes the line terminators \n, \r, U+2028, U+2029. -/
def isLineTerm (c : Char) : Bool :=
  c == '\n' || c == '\r' || c == Char.ofNat 0x2028 || c == Char.ofNat 0x2029

/-- JS regex `\s`: whitespace and BOM code points. -/
def isJsSpace (c : Char) : Bool :=
  c == ' ' || c == '\t' || c == '\n' || c == '\r' ||
  c == Char.ofNat 0x0b || c == Char.ofNat 0x0c ||
  c == Char.ofNat 0xa0 || c == Char.ofNat 0x1680 ||
  (0x2000 ≤ c.toNat && c.toNat ≤ 0x200a) ||
  c == Char.ofNat 0x2028 || c == Char.ofNat 0x2029 ||
  c == Char.ofNat 0x202f || c == Char.ofNat 0x205f ||
  c == Char.ofNat 0x3000 || c == Char.ofNat 0xfeff

/-- One token of a regex alternative: a case-insensitive literal character, a
character class repeated exactly `n` times (`[...]{n}`, with `[...]` itself the
`n = 1` case), a greedy `.*`, or a greedy `\s*`. -/
inductive Tok where
  | lit (c : Char)
  | cls (cs : List Char) (n : Nat)
  | dotstar
  | wsstar
deriving DecidableEq

/-- Fuel bound for the matcher: total remaining obligations of a token list. -/
def toksSize : List Tok → Nat
  | [] => 0
  | Tok.cls _ n :: ts => n + 1 + toksSize ts
  | _ :: ts => 1 + toksSize ts

/-- Fueled matcher: does the token sequence match a prefix of `s`?  Returns the
consumed prefix (original characters).  Greedy quantifiers consume first and
backtrack, as the JS engine does. -/
def matchToksF : Nat → List Tok → List Char → Option (List Char)
  | 0, _, _ => none
  | _ + 1, [], _ => some []
  | fuel + 1, Tok.lit c :: ts, s =>
    match s with
    | [] => none
    | x :: xs => if ciEq c x then (matchToksF fuel ts xs).map (x :: ·) else none
  | fuel + 1, Tok.cls cs n :: ts, s =>
    match n with
    | 0 => matchToksF fuel ts s
    | m + 1 =>
      match s with
      | [] => none
      | x :: xs =>
        if cs.contains (jsToLower x) then
          (matchToksF fuel (Tok.cls cs m :: ts) xs).map (x :: ·)
        else none
  | fuel + 1, Tok.dotstar :: ts, s =>
    match s with
    | [] => matchToksF fuel ts []
    | x :: xs =>
      if isLineTerm x then matchToksF fuel ts s
      else
        match matchToksF fuel (Tok.dotstar :: ts) xs with
        | some r => some (x :: r)
        | none => matchToksF fuel ts s
  | fuel + 1, Tok.wsstar :: ts, s =>
    match s with
    | [] => matchToksF fuel ts []
    | x :: xs =>
      if isJsSpace x then
        match matchToksF fuel (Tok.wsstar :: ts) xs with
        | some r => some (x :: r)
        | none => matchToksF fuel ts s
      else matchToksF fuel ts s

/-- Match a token sequence against a prefix of `s`, with sufficient fuel. -/
def matchToks (ts : List Tok) (s : List Char) : Option (List Char) :=
  matchToksF (toksSize ts + s.length + 1) ts s

/-- Try the alternatives of a pattern, in source order, at one position. -/
def tryAlts : List (List Tok) → List Char → Option (List Char)
  | [], _ => none
  | a :: rest, s =>
    match matchToks a s with
    | some r => some r
    | none => tryAlts rest s

/-- Unanchored search: scan starting positions left to right (leftmost match
wins, as in `String.prototype.match` without the `g` flag); the result is the
matched substring (`match[0]`). -/
def search (alts : List (List Tok)) : List Char → Option (List Char)
  | [] => tryAlts alts []
  | x :: xs =>
    match tryAlts alts (x :: xs) with
    | some r => some r
    | none => search alts xs

/-- A literal fragment of a regex (escaped metacharacters included verbatim). -/
def lits (s : String) : List Tok := s.data.map Tok.lit

/-- An alternation of plain literal alternatives. -/
def reAlt (ss : List String) : List (List Tok) := ss.map lits

/-- A character class written as its source string of member characters,
repeated `n` times; `i`-flag folding stores the members lowercased. -/
def clsTok (s : String) (n : Nat) : Tok := Tok.cls (s.data.map jsToLower) n

/-- Characters from `a` to `b` inclusive (a `a-b` range inside a class). -/
def chRange (a b : Char) : List Char :=
  (List.range (b.toNat + 1 - a.toNat)).map (fun i => Char.ofNat (a.toNat + i))

/-- A character class given by explicit characters/ranges, repeated `n` times. -/
def clsOf (chars : List Char) (n : Nat) : Tok := Tok.cls (chars.map jsToLower) n

/-- One entry of the analyzers' `matches` output:
`{ match: string, category: string, weight: number }`. -/
structure MatchEntry where
  «match» : String
  category : String
  weight : Nat
deriving DecidableEq, Repr

/-- One catalog rule: `{ pattern, category, weight }`. -/
structure IndicatorRule where
  pattern : List (List Tok)
  category : String
  weight : Nat
deriving DecidableEq

/-- Result shape of `analyzeCryptoMiningIndicators`: `{ score, matches }`. -/
structure AnalysisResult where
  score : Nat
  «matches» : List MatchEntry
deriving DecidableEq, Repr

/-- The `for`-loop over the catalog: for each rule in order whose pattern tests
positive against the content, push one `{ match: match[0], category, weight }`. -/
def matchesOf (cat : List IndicatorRule) (content : String) : List MatchEntry :=
  cat.filterMap fun r =>
    (search r.pattern content.data).map fun m =>
      ⟨String.mk m, r.category, r.weight⟩

/-- The spec's scoring expression, for comparison with the implementations:
the sum of the weights of the distinct catalog rules whose pattern matches the
content, each matching rule counted once (spec §4.2 / §8). -/
def specWeightSum (cat : List IndicatorRule) (content : String) : Nat :=
  ((cat.filter fun r => (search r.pattern content.data).isSome).map
    (fun r => r.weight)).sum

namespace Scanner

/-- The catalog `CRYPTO_PATTERNS` of `scanner.ts` (10 rules, all alternations of
literals; `\+`, `\.`, `\(` are escaped literal characters). -/
def CRYPTO_PATTERNS : List IndicatorRule := [
  ⟨reAlt ["coinminer", "cryptominer", "monerominer"], "Mining Software", 9⟩,
  ⟨reAlt ["coinhive", "cryptoloot", "deepminer", "webminepool"], "Browser Mining", 10⟩,
  ⟨reAlt ["stratum+tcp", "pool.supportxmr", "nanopool", "minexmr"], "Mining Pool", 8⟩,
  ⟨reAlt ["cryptonight", "ethash", "equihash", "randomx"], "Mining Algorithm", 7⟩,
  ⟨reAlt ["monero", "xmr", "eth wallet", "btc wallet"], "Cryptocurrency", 6⟩,
  ⟨reAlt ["WinRing0", "GPU mining"], "Mining Hardware Access", 8⟩,
  ⟨reAlt ["hashrate", "throttle", "stealth mining"], "Mining Behavior", 7⟩,
  ⟨reAlt ["base64 -d", "eval(atob", "fromCharCode"], "Obfuscation", 8⟩,
  ⟨reAlt ["powershell -enc", "powershell -e", "hidden -w"], "Suspicious Execution", 9⟩,
  ⟨reAlt ["schtasks", "persistence", "startup folder"], "Persistence Mechanism", 7⟩]

/-- `analyzeCryptoMiningIndicators` of `scanner.ts`.  The score line is
`Math.min(Math.round((totalWeight / 30) * 100), 100)`.  For `totalWeight = w ≤ 79`
the float expression `(w / 30) * 100` differs from the rational `10w/3` by less
than `2⁻⁴⁰` while `10w/3` has fractional part `0`, `1/3` or `2/3`, never `1/2`;
hence `Math.round` of it equals round-to-nearest of `10w/3`, which over `Nat` is
`(20 * w + 3) / 6` (floor division). -/
def analyzeCryptoMiningIndicators (content : String) : AnalysisResult :=
  { score :=
      min ((20 * ((matchesOf CRYPTO_PATTERNS content).map (fun m => m.weight)).sum + 3) / 6) 100,
    «matches» := matchesOf CRYPTO_PATTERNS content }

end Scanner

namespace Part003

/-- The `indicators` catalog of the comprehensive implementation (11 rules). -/
def indicators : List IndicatorRule := [
  ⟨reAlt ["xmrig", "cpuminer", "claymore", "ethminer", "phoenixminer"], "MinerSoftware", 8⟩,
  ⟨reAlt ["monero", "xmr miner", "cryptonight"], "MinerSoftware", 7⟩,
  ⟨reAlt ["stratum+tcp", "pool.supportxmr.com", "pool.minexmr.com"], "MiningPool", 9⟩,
  ⟨reAlt ["nanopool", "ethermine", "f2pool", "nicehash"], "MiningPool", 8⟩,
  ⟨reAlt ["coinhive", "cryptoloot", "jsecoin", "webminepool", "cryptonoter"], "BrowserMiner", 7⟩,
  ⟨[[Tok.lit '4', clsOf (chRange '0' '9' ++ ['A', 'B']) 1,
     clsTok "123456789ABCDEFGHJKLMNPQRSTUVWXYZabcdefghijkmnopqrstuvwxyz" 93]],
    "MoneroWallet", 6⟩,
  ⟨[[Tok.lit '0', Tok.lit 'x', clsOf (chRange 'a' 'f' ++ chRange 'A' 'F' ++ chRange '0' '9') 40]],
    "EthereumWallet", 5⟩,
  ⟨reAlt ["--donate-level", "--max-cpu-usage", "--cpu-priority"], "MinerConfig", 8⟩,
  ⟨[lits "config.json" ++ [Tok.dotstar] ++ lits "\"url\"" ++ [Tok.wsstar] ++
      lits ":" ++ [Tok.wsstar] ++ lits "\"stratum"], "MinerConfig", 9⟩,
  ⟨[lits "schtasks" ++ [Tok.dotstar] ++ lits "create" ++ [Tok.dotstar] ++ lits "powershell"],
    "SuspiciousBehavior", 7⟩,
  ⟨[lits "hidden" ++ [Tok.dotstar] ++ lits "startup"], "SuspiciousBehavior", 6⟩]

/-- `analyzeCryptoMiningIndicators` of the comprehensive implementation:
weights of matching rules are accumulated, then `score = Math.min(100, score)`. -/
def analyzeCryptoMiningIndicators (content : String) : AnalysisResult :=
  { score := min 100 (((matchesOf indicators content).map (fun m => m.weight)).sum),
    «matches» := matchesOf indicators content }

end Part003

/-- Severity tokens `'HIGH' | 'MEDIUM' | 'LOW'`. -/
inductive Severity where
  | HIGH
  | MEDIUM
  | LOW
deriving DecidableEq, BEq, Repr

/-- Status tokens `'pending' | 'in-progress' | 'completed' | 'failed'`. -/
inductive ScanStatus where
  | pending
  | inProgress
  | completed
  | failed
deriving DecidableEq, BEq, Repr

/-- One detection record of `O365ScanResult.detections`. -/
structure Detection where
  id : Nat
  severity : Severity
  source : String
  itemType : String
  score : Nat
  content : String
  «matches» : List MatchEntry
deriving DecidableEq, Repr

/-- The `summary` record `{ total, high, medium, low }`. -/
structure ScanSummary where
  total : Nat
  high : Nat
  medium : Nat
  low : Nat
deriving DecidableEq, Repr

/-- `O365ScanResult`.  `scanId` and `timestamp` are derived from the ambient
clock (`Date.now()` / `new Date()`); they identify the invocation and carry no
detection content, so they are left out of the embedding (no claim mentions
them). -/
structure O365ScanResult where
  tenant : String
  status : ScanStatus
  summary : ScanSummary
  detections : List Detection
  error : Option String
deriving DecidableEq, Repr

/-- `AuthResult` of `auth.ts`: `{ authenticated, token?, error?, expiresAt? }`. -/
structure AuthResult where
  authenticated : Bool
  token : Option String
  error : Option String := none
  expiresAt : Option Nat := none
deriving DecidableEq, Repr

/-- JS truthiness of the optional `token` field: `!authResult.token` holds when
the token is absent or the empty string. -/
def tokenFalsy : Option String → Bool
  | none => true
  | some t => t == ""

/-- `O365ScanOptions`; TypeScript optional booleans are `Option Bool`
(`none` = field absent).  The guards in the code compare against the literal
`false`, so `none` (absent) behaves as enabled. -/
structure O365ScanOptions where
  includeEmail : Option Bool := none
  includeSharePoint : Option Bool := none
  includeOneDrive : Option Bool := none
  includeTeams : Option Bool := none
  maxItems : Option Nat := none
  scanDepth : Option String := none
deriving DecidableEq, Repr

/-- The failure `O365ScanResult` shape shared by both implementations:
`status: 'failed'`, zero summary, no detections, the given error message. -/
def failedResult (tenant : String) (err : String) : O365ScanResult :=
  { tenant, status := .failed, summary := ⟨0, 0, 0, 0⟩, detections := [], error := some err }

/-- Summary computation shared by both implementations: `total` is the list
length and each tier is the length of the corresponding severity filter. -/
def summarize (dets : List Detection) : ScanSummary :=
  { total := dets.length,
    high := (dets.filter fun d => d.severity == Severity.HIGH).length,
    medium := (dets.filter fun d => d.severity == Severity.MEDIUM).length,
    low := (dets.filter fun d => d.severity == Severity.LOW).length }

namespace Part003

/-- The severity expression of the detection push:
`analysis.score > 70 ? 'HIGH' : analysis.score > 40 ? 'MEDIUM' : 'LOW'`. -/
def severityOfScore (score : Nat) : Severity :=
  if score > 70 then .HIGH else if score > 40 then .MEDIUM else .LOW

/-- The detection object pushed for one analyzed message, given the value the
counter `detections.length + 1` takes at push time.  `content.substring(0, 200)
+ '...'` truncates the stored content. -/
def mkDetection (source itemType : String) (n : Nat) (content : String) : Detection :=
  { id := n,
    severity := severityOfScore (analyzeCryptoMiningIndicators content).score,
    source, itemType,
    score := (analyzeCryptoMiningIndicators content).score,
    content := content.take 200 ++ "...",
    «matches» := (analyzeCryptoMiningIndicators content).«matches» }

/-- One iteration of the message loop: analyze the content and, when
`analysis.matches.length > 0`, push a detection with `id = detections.length + 1`. -/
def itemStep (source itemType : String) (dets : List Detection) (content : String) :
    List Detection :=
  if ((analyzeCryptoMiningIndicators content).«matches»).length > 0 then
    dets ++ [mkDetection source itemType (dets.length + 1) content]
  else dets

/-- The Exchange Online message loop of `scanO365Tenant`: each message body
content (`message.body.content || ''`) is analyzed in delivery order. -/
def emailStep (dets : List Detection) (content : String) : List Detection :=
  itemStep "Exchange Online" "Email" dets content

/-- All Exchange messages processed from the initially empty detection list. -/
def scanEmails (messages : List String) : List Detection :=
  messages.foldl emailStep []

/-- `scanO365Tenant` of the comprehensive implementation.  The Microsoft Graph
call `graphClient.get('/me/messages?$top=50')` followed by the extraction of
each `message.body.content || ''` is the content-provider boundary; it enters
the embedding as `emailFetch`, either the delivered body-content strings or the
error thrown by the fetch.  A thrown fetch error is caught by the per-source
`catch` (logged only), so the failing source contributes no detections and the
scan completes. -/
def scanO365Tenant (authResult : AuthResult) (tenant : String)
    (options : O365ScanOptions) (emailFetch : Except String (List String)) :
    O365ScanResult :=
  if !authResult.authenticated || tokenFalsy authResult.token then
    failedResult tenant "Authentication required"
  else
    let detections :=
      if options.includeEmail != some false then
        match emailFetch with
        | .error _ => []
        | .ok messages => scanEmails messages
      else []
    { tenant, status := .completed, summary := summarize detections, detections,
      error := none }

end Part003

namespace Scanner

/-- Case-sensitive: does the haystack start with the needle? -/
def hasPrefixCS : List Char → List Char → Bool
  | [], _ => true
  | _ :: _, [] => false
  | a :: as, b :: bs => a == b && hasPrefixCS as bs

/-- Case-sensitive: does the needle occur anywhere in the haystack? -/
def hasInfixCS (needle : List Char) : List Char → Bool
  | [] => hasPrefixCS needle []
  | x :: xs => hasPrefixCS needle (x :: xs) || hasInfixCS needle xs

/-- `d.source.includes(sub)`: case-sensitive substring test. -/
def sourceIncludes (s sub : String) : Bool := hasInfixCS sub.data s.data

/-- The hard-coded `mockDetections` array of the mock `scanO365Tenant`. -/
def mockDetections : List Detection := [
  { id := 1, severity := .HIGH, source := "Exchange Online", itemType := "Email Attachment",
    score := 92, content := "Suspicious PowerShell script with obfuscated mining commands",
    «matches» := [⟨"Invoke-Expression", "PowerShell Execution", 7⟩,
                  ⟨"base64 encoded content", "Obfuscation", 8⟩] },
  { id := 2, severity := .HIGH, source := "SharePoint Online", itemType := "Shared Document",
    score := 88, content := "JavaScript file with hidden cryptomining code",
    «matches» := [⟨"CoinHive", "Mining Service", 10⟩,
                  ⟨"WebAssembly.instantiate", "Browser Mining", 6⟩] },
  { id := 3, severity := .MEDIUM, source := "OneDrive", itemType := "Script File",
    score := 65, content := "Batch file with suspicious network connections",
    «matches» := [⟨"pool.minexmr.com", "Mining Pool", 8⟩] },
  { id := 4, severity := .MEDIUM, source := "Teams", itemType := "Shared Link",
    score := 58, content := "Link to suspicious mining pool registration",
    «matches» := [⟨"cryptopool.eu", "Mining Pool", 7⟩] },
  { id := 5, severity := .LOW, source := "Exchange Online", itemType := "Email Body",
    score := 35, content := "Email discussing cryptocurrency mining",
    «matches» := [⟨"mining rig", "Mining Hardware", 4⟩] }]

/-- The mock `scanO365Tenant` of `scanner.ts`: after the authentication guard it
filters the hard-coded detections by the `include*` flags (each flag compared
against the literal `false`) and summarizes what remains.  The mock delay and
the console log have no observable effect on the returned record. -/
def scanO365Tenant (authResult : AuthResult) (tenant : String)
    (options : O365ScanOptions) : O365ScanResult :=
  if !authResult.authenticated || tokenFalsy authResult.token then
    failedResult tenant "Authentication required"
  else
    let d0 := mockDetections
    let d1 := if options.includeEmail == some false then
        d0.filter fun d => !sourceIncludes d.source "Exchange"
      else d0
    let d2 := if options.includeSharePoint == some false then
        d1.filter fun d => !sourceIncludes d.source "SharePoint"
      else d1
    let d3 := if options.includeOneDrive == some false then
        d2.filter fun d => !sourceIncludes d.source "OneDrive"
      else d2
    let d4 := if options.includeTeams == some false then
        d3.filter fun d => !sourceIncludes d.source "Teams"
      else d3
    { tenant, status := .completed, summary := summarize d4, detections := d4,
      error := none }

end Scanner

namespace ModelScan

/-- One content source of the aggregation layer: its reported `source` name and
`itemType`, whether its `include*` gate enables it, and the outcome of its
content-provider fetch. -/
structure SourceSpec where
  name : String
  itemType : String
  enabled : Bool
  fetch : Except String (List String)

/-- Modelled from the spec: `scanO365Tenant` scans only Exchange Online; the
SharePoint, OneDrive and Teams branches are absent from src (the code holds only
the placeholder comment `Implement similar scanning for SharePoint, OneDrive,
and Teams`).  This replays the implemented per-source pattern for a list of
sources, as §4.3/§7 of the spec describe: an enabled source is fetched inside
its own try/catch; a fetch error is swallowed and the source contributes zero
detections; items of successful fetches are analyzed in delivery order with the
shared detection counter. -/
def scanSource (dets : List Detection) (src : SourceSpec) : List Detection :=
  match src.fetch with
  | .error _ => dets
  | .ok messages => messages.foldl (Part003.itemStep src.name src.itemType) dets

/-- Modelled from the spec: the aggregation of `scanO365Tenant` over a source
list (see `scanSource`).  The second component records which sources were
requested from the content provider (a disabled source is never fetched). -/
def runScan (authResult : AuthResult) (tenant : String)
    (sources : List SourceSpec) : O365ScanResult × List String :=
  if !authResult.authenticated || tokenFalsy authResult.token then
    (failedResult tenant "Authentication required", [])
  else
    let detections := sources.foldl
      (fun dets src => if src.enabled then scanSource dets src else dets) []
    ({ tenant, status := .completed, summary := summarize detections, detections,
       error := none },
     (sources.filter fun s => s.enabled).map fun s => s.name)

/-- Modelled from the spec: the four O365 sources in the fixed visitation order
Email, SharePoint, OneDrive, Teams, each gated by its `include*` flag exactly as
the implemented Email branch is (`options.includeX !== false`). -/
def o365Sources (options : O365ScanOptions)
    (fE fS fO fT : Except String (List String)) : List SourceSpec :=
  [⟨"Exchange Online", "Email", options.includeEmail != some false, fE⟩,
   ⟨"SharePoint Online", "Document", options.includeSharePoint != some false, fS⟩,
   ⟨"OneDrive", "File", options.includeOneDrive != some false, fO⟩,
   ⟨"Teams", "Message", options.includeTeams != some false, fT⟩]

/-- Modelled from the spec: `runScan` on the four gated O365 sources. -/
def runScanO365 (authResult : AuthResult) (tenant : String)
    (options : O365ScanOptions) (fE fS fO fT : Except String (List String)) :
    O365ScanResult × List String :=
  runScan authResult tenant (o365Sources options fE fS fO fT)

end ModelScan

/-! ### Structural lemmas about the analyzers -/

/-- The match list is exactly one entry per matching catalog rule, in catalog
order, each carrying the rule's first matched substring. -/
theorem matchesOf_eq_filter_map (cat : List IndicatorRule) (content : String) :
    matchesOf cat content =
      (cat.filter fun r => (search r.pattern content.data).isSome).map
        (fun r => ⟨String.mk ((search r.pattern content.data).getD []),
                   r.category, r.weight⟩) := by
  induction cat with
  | nil => rfl
  | cons r rs ih =>
    simp only [matchesOf, List.filterMap_cons, List.filter_cons] at ih ⊢
    cases h : search r.pattern content.data with
    | none => simpa [h] using ih
    | some m => simp [h, ih]

/-- The accumulated weight of the match list is the spec's sum over distinct
matching rules. -/
theorem matchesOf_weight_sum (cat : List IndicatorRule) (content : String) :
    ((matchesOf cat content).map (fun m => m.weight)).sum
      = specWeightSum cat content := by
  rw [matchesOf_eq_filter_map, specWeightSum, List.map_map]
  rfl

/-- The match list is empty exactly when no catalog rule matches. -/
theorem matchesOf_eq_nil_iff (cat : List IndicatorRule) (content : String) :
    matchesOf cat content = []
      ↔ (cat.filter fun r => (search r.pattern content.data).isSome) = [] := by
  rw [matchesOf_eq_filter_map, List.map_eq_nil_iff]

/-- With an all-positive-weight catalog, the spec weight sum vanishes exactly
when no rule matches. -/
theorem specWeightSum_eq_zero_iff (cat : List IndicatorRule) (content : String)
    (hw : ∀ r ∈ cat, 0 < r.weight) :
    specWeightSum cat content = 0
      ↔ (cat.filter fun r => (search r.pattern content.data).isSome) = [] := by
  unfold specWeightSum
  rw [List.sum_eq_zero_iff]
  constructor
  · intro h
    cases hf : cat.filter fun r => (search r.pattern content.data).isSome with
    | nil => rfl
    | cons r rest =>
      have hr : r ∈ cat := List.mem_of_mem_filter (hf ▸ List.mem_cons_self r rest)
      have : r.weight = 0 := h r.weight (by rw [hf]; exact List.mem_map_of_mem _ (List.mem_cons_self r rest))
      exact absurd this (Nat.pos_iff_ne_zero.mp (hw r hr))
  · intro h
    rw [h]
    intro x hx
    exact absurd hx (List.not_mem_nil x)

/-- Every rule of the comprehensive catalog has positive weight. -/
theorem indicators_weight_pos : ∀ r ∈ Part003.indicators, 0 < r.weight := by decide

/-- Every rule of the `scanner.ts` catalog has positive weight. -/
theorem CRYPTO_PATTERNS_weight_pos : ∀ r ∈ Scanner.CRYPTO_PATTERNS, 0 < r.weight := by decide

/-- Score of the comprehensive analyzer, in terms of the spec weight sum. -/
theorem p3_score_eq (content : String) :
    (Part003.analyzeCryptoMiningIndicators content).score
      = min 100 (specWeightSum Part003.indicators content) := by
  simp [Part003.analyzeCryptoMiningIndicators, matchesOf_weight_sum]

/-- Score of the `scanner.ts` analyzer, in terms of the spec weight sum. -/
theorem scanner_score_eq (content : String) :
    (Scanner.analyzeCryptoMiningIndicators content).score
      = min ((20 * specWeightSum Scanner.CRYPTO_PATTERNS content + 3) / 6) 100 := by
  simp [Scanner.analyzeCryptoMiningIndicators, matchesOf_weight_sum]

/-- The comprehensive analyzer's score vanishes exactly when its match list is
empty. -/
theorem p3_score_zero_iff (content : String) :
    (Part003.analyzeCryptoMiningIndicators content).score = 0
      ↔ (Part003.analyzeCryptoMiningIndicators content).«matches» = [] := by
  have hm : (Part003.analyzeCryptoMiningIndicators content).«matches»
      = matchesOf Part003.indicators content := rfl
  rw [p3_score_eq, hm, matchesOf_eq_nil_iff,
    ← specWeightSum_eq_zero_iff Part003.indicators content indicators_weight_pos]
  omega

/-- The `scanner.ts` analyzer's score vanishes exactly when its match list is
empty. -/
theorem scanner_score_zero_iff (content : String) :
    (Scanner.analyzeCryptoMiningIndicators content).score = 0
      ↔ (Scanner.analyzeCryptoMiningIndicators content).«matches» = [] := by
  have hm : (Scanner.analyzeCryptoMiningIndicators content).«matches»
      = matchesOf Scanner.CRYPTO_PATTERNS content := rfl
  rw [scanner_score_eq, hm, matchesOf_eq_nil_iff,
    ← specWeightSum_eq_zero_iff Scanner.CRYPTO_PATTERNS content CRYPTO_PATTERNS_weight_pos]
  omega

/-! ### Structural lemmas about the aggregators -/

/-- The derived boolean equality on severities agrees with propositional
equality. -/
theorem severity_beq_eq (a b : Severity) : (a == b) = decide (a = b) := by
  cases a <;> cases b <;> rfl

/-- `List.range'` with unit step grows by its upper end. -/
theorem range'_one_concat (n : Nat) :
    ∀ s : Nat, List.range' s (n + 1) = List.range' s n ++ [s + n] := by
  induction n with
  | zero => intro s; rfl
  | succ n ih =>
    intro s
    show s :: List.range' (s + 1) (n + 1) = (s :: List.range' (s + 1) n) ++ [s + (n + 1)]
    rw [ih (s + 1)]
    simp [Nat.add_comm, Nat.add_assoc, Nat.add_left_comm]

/-- The severity filters partition any detection list. -/
theorem summarize_partition (dets : List Detection) :
    (summarize dets).total
      = (summarize dets).high + (summarize dets).medium + (summarize dets).low
    ∧ (summarize dets).total = dets.length := by
  refine ⟨?_, rfl⟩
  show dets.length = _
  induction dets with
  | nil => rfl
  | cons d l ih =>
    cases h : d.severity <;>
      simp only [summarize, List.filter_cons, severity_beq_eq, h, List.length_cons] at ih ⊢ <;>
      simp at ih ⊢ <;> omega

/-- Detections appended by the item loop: any member of the fold either was in
the accumulator or is the pushed record of some analyzed content whose match
list is non-empty. -/
theorem mem_foldl_itemStep (source itemType : String) (msgs : List String) :
    ∀ (acc : List Detection) (d : Detection),
      d ∈ msgs.foldl (Part003.itemStep source itemType) acc →
      d ∈ acc ∨ ∃ content n,
        ((Part003.analyzeCryptoMiningIndicators content).«matches»).length > 0 ∧
        d = Part003.mkDetection source itemType n content := by
  induction msgs with
  | nil => intro acc d h; exact Or.inl h
  | cons m ms ih =>
    intro acc d h
    rcases ih _ d h with h' | h'
    · unfold Part003.itemStep at h'
      split at h'
      · rcases List.mem_append.1 h' with h2 | h2
        · exact Or.inl h2
        · refine Or.inr ⟨m, acc.length + 1, by assumption, ?_⟩
          simpa using h2
      · exact Or.inl h'
    · exact Or.inr h'

/-- A zero-score item is skipped by the item loop. -/
theorem itemStep_score_zero (source itemType : String) (dets : List Detection)
    (content : String)
    (h : (Part003.analyzeCryptoMiningIndicators content).score = 0) :
    Part003.itemStep source itemType dets content = dets := by
  unfold Part003.itemStep
  rw [if_neg]
  simp [(p3_score_zero_iff content).mp h]

/-- The item loop numbers detections `1, 2, ...` in visitation order. -/
theorem foldl_itemStep_ids (source itemType : String) (msgs : List String) :
    ∀ acc : List Detection,
      acc.map (fun d => d.id) = List.range' 1 acc.length →
      (msgs.foldl (Part003.itemStep source itemType) acc).map (fun d => d.id)
        = List.range' 1 (msgs.foldl (Part003.itemStep source itemType) acc).length := by
  induction msgs with
  | nil => intro acc h; exact h
  | cons m ms ih =>
    intro acc h
    apply ih
    unfold Part003.itemStep
    split
    · simp [Part003.mkDetection, h, range'_one_concat acc.length 1, Nat.add_comm]
    · exact h

/-- Ids of the comprehensive scan loop are exactly `1, ..., n`. -/
theorem scanEmails_ids (msgs : List String) :
    (Part003.scanEmails msgs).map (fun d => d.id)
      = List.range' 1 (Part003.scanEmails msgs).length :=
  foldl_itemStep_ids "Exchange Online" "Email" msgs [] rfl

/-- Filtering preserves strictly increasing ids. -/
theorem pairwise_ids_filter (l : List Detection) (p : Detection → Bool)
    (h : List.Pairwise (· < ·) (l.map (fun d => d.id))) :
    List.Pairwise (· < ·) ((l.filter p).map (fun d => d.id)) :=
  h.sublist ((List.filter_sublist l).map _)

/-- Conditional filtering preserves strictly increasing ids. -/
theorem pairwise_ids_ite (b : Bool) (l : List Detection) (p : Detection → Bool)
    (h : List.Pairwise (· < ·) (l.map (fun d => d.id))) :
    List.Pairwise (· < ·) (((if b then l.filter p else l)).map (fun d => d.id)) := by
  cases b
  · simpa using h
  · simpa using pairwise_ids_filter l p h

/-- Severity tier by the code's conditional expression, per score range. -/
theorem severityOfScore_cases (s : Nat) :
    (70 < s → Part003.severityOfScore s = .HIGH)
    ∧ (40 < s → s ≤ 70 → Part003.severityOfScore s = .MEDIUM)
    ∧ (s ≤ 40 → Part003.severityOfScore s = .LOW) := by
  unfold Part003.severityOfScore
  refine ⟨?_, ?_, ?_⟩ <;> intros <;> split_ifs <;> first | rfl | omega

/-! ### Claims -/

/-- C1 (counterexample): at content `"monero"` the `scanner.ts` analyzer
matches exactly the Cryptocurrency rule (weight 6), but its score is
`min(round((6 / 30) * 100), 100) = 20`, not `min(100, 6) = 6`: the claimed
formula `score = min(100, sum of distinct matched rules' weights)` is false of
`scanner.ts`'s `analyzeCryptoMiningIndicators`. -/
theorem c1_counterexample :
    (Scanner.analyzeCryptoMiningIndicators "monero").score = 20
    ∧ specWeightSum Scanner.CRYPTO_PATTERNS "monero" = 6
    ∧ (Scanner.analyzeCryptoMiningIndicators "monero").score
        ≠ min 100 (specWeightSum Scanner.CRYPTO_PATTERNS "monero") := by
  decide

/-- C1 (amended): for every content string the score is an integer in
`[0, 100]` determined by the sum `W` of the weights of the distinct catalog
rules whose pattern matches, each matching rule counted once; the `scanner.ts`
implementation returns `min(round(W * 100 / 30), 100)` (over `Nat`:
`min((20 * W + 3) / 6, 100)`), while the `part_003` implementation returns
`min(100, W)` as the claim states. -/
theorem c1_score_normalization (content : String) :
    (Scanner.analyzeCryptoMiningIndicators content).score
        = min ((20 * specWeightSum Scanner.CRYPTO_PATTERNS content + 3) / 6) 100
    ∧ (Scanner.analyzeCryptoMiningIndicators content).score ≤ 100
    ∧ (Part003.analyzeCryptoMiningIndicators content).score
        = min 100 (specWeightSum Part003.indicators content)
    ∧ (Part003.analyzeCryptoMiningIndicators content).score ≤ 100 := by
  refine ⟨scanner_score_eq content, ?_, p3_score_eq content, ?_⟩
  · rw [scanner_score_eq]
    exact Nat.min_le_right _ _
  · rw [p3_score_eq]
    exact Nat.min_le_left _ _

/-- C3: the scenario content matches both the MinerSoftware rule (on `xmrig`,
weight 8) and the MiningPool rule (on `stratum+tcp`, weight 9) of the
comprehensive catalog; the two weights sum to 17 ≥ 17, and the analyzer's
score is exactly 17. -/
theorem c3_scenario_xmrig_stratum :
    (⟨"xmrig", "MinerSoftware", 8⟩ : MatchEntry)
        ∈ (Part003.analyzeCryptoMiningIndicators
            "curl xmrig -o stratum+tcp://pool.example.com:3333 -u wallet").«matches»
    ∧ (⟨"stratum+tcp", "MiningPool", 9⟩ : MatchEntry)
        ∈ (Part003.analyzeCryptoMiningIndicators
            "curl xmrig -o stratum+tcp://pool.example.com:3333 -u wallet").«matches»
    ∧ 17 ≤ 8 + 9
    ∧ (Part003.analyzeCryptoMiningIndicators
            "curl xmrig -o stratum+tcp://pool.example.com:3333 -u wallet").score = 17 := by
  decide

/-- C8: for every content string each analyzer emits exactly one Match entry
per distinct matching catalog rule — in catalog order, carrying the first
matched substring — and each matching rule's weight enters the weight total
exactly once, however often its pattern occurs in the content; concretely, a
content with two occurrences of `xmrig` still yields a single entry. -/
theorem c8_rule_idempotent (content : String) :
    (Part003.analyzeCryptoMiningIndicators content).«matches»
      = (Part003.indicators.filter fun r => (search r.pattern content.data).isSome).map
          (fun r => ⟨String.mk ((search r.pattern content.data).getD []),
                     r.category, r.weight⟩)
    ∧ ((Part003.analyzeCryptoMiningIndicators content).«matches».map (fun m => m.weight)).sum
        = specWeightSum Part003.indicators content
    ∧ (Scanner.analyzeCryptoMiningIndicators content).«matches»
      = (Scanner.CRYPTO_PATTERNS.filter fun r => (search r.pattern content.data).isSome).map
          (fun r => ⟨String.mk ((search r.pattern content.data).getD []),
                     r.category, r.weight⟩)
    ∧ ((Scanner.analyzeCryptoMiningIndicators content).«matches».map (fun m => m.weight)).sum
        = specWeightSum Scanner.CRYPTO_PATTERNS content
    ∧ ((Part003.analyzeCryptoMiningIndicators "xmrig xmrig").«matches»).length = 1 :=
  ⟨matchesOf_eq_filter_map _ _, matchesOf_weight_sum _ _,
   matchesOf_eq_filter_map _ _, matchesOf_weight_sum _ _, by decide⟩

/-- C10: for every content string, score 0 and an empty match list coincide in
both analyzers, so the aggregator's emission guard `matches.length > 0` is the
spec's `score > 0` condition; the empty string scores 0 with no matches. -/
theorem c10_score_zero_iff_no_matches (content : String) :
    ((Part003.analyzeCryptoMiningIndicators content).score = 0
      ↔ (Part003.analyzeCryptoMiningIndicators content).«matches» = [])
    ∧ ((Part003.analyzeCryptoMiningIndicators content).«matches».length > 0
      ↔ 0 < (Part003.analyzeCryptoMiningIndicators content).score)
    ∧ ((Scanner.analyzeCryptoMiningIndicators content).score = 0
      ↔ (Scanner.analyzeCryptoMiningIndicators content).«matches» = [])
    ∧ (Part003.analyzeCryptoMiningIndicators "").score = 0
    ∧ (Part003.analyzeCryptoMiningIndicators "").«matches» = []
    ∧ (Scanner.analyzeCryptoMiningIndicators "").score = 0
    ∧ (Scanner.analyzeCryptoMiningIndicators "").«matches» = [] := by
  have h := p3_score_zero_iff content
  refine ⟨h, ?_, scanner_score_zero_iff content, by decide, by decide, by decide, by decide⟩
  constructor
  · intro hl
    rcases Nat.eq_zero_or_pos (Part003.analyzeCryptoMiningIndicators content).score with h0 | h0
    · rw [h.mp h0] at hl
      simp at hl
    · exact h0
  · intro hs
    by_contra hl
    have hnil : (Part003.analyzeCryptoMiningIndicators content).«matches» = [] :=
      List.length_eq_zero.mp (by omega)
    have := h.mpr hnil
    omega

/-- C2: every Detection emitted by the comprehensive scan loop has positive
score with severity derived from it — score > 70 HIGH, 40 < score ≤ 70 MEDIUM,
0 < score ≤ 40 LOW — and an item whose analysis scores 0 adds no Detection. -/
theorem c2_severity_mapping (messages : List String) (d : Detection)
    (h : d ∈ Part003.scanEmails messages) :
    0 < d.score
    ∧ (70 < d.score → d.severity = Severity.HIGH)
    ∧ (40 < d.score → d.score ≤ 70 → d.severity = Severity.MEDIUM)
    ∧ (0 < d.score → d.score ≤ 40 → d.severity = Severity.LOW)
    ∧ (∀ (dets : List Detection) (content : String),
        (Part003.analyzeCryptoMiningIndicators content).score = 0 →
        Part003.emailStep dets content = dets) := by
  have h' : d ∈ messages.foldl (Part003.itemStep "Exchange Online" "Email") [] := h
  rcases mem_foldl_itemStep "Exchange Online" "Email" messages [] d h' with h0 | ⟨content, n, hlen, rfl⟩
  · simp at h0
  · have hscore : (Part003.mkDetection "Exchange Online" "Email" n content).score
        = (Part003.analyzeCryptoMiningIndicators content).score := rfl
    have hsev : (Part003.mkDetection "Exchange Online" "Email" n content).severity
        = Part003.severityOfScore (Part003.analyzeCryptoMiningIndicators content).score := rfl
    have hpos : 0 < (Part003.analyzeCryptoMiningIndicators content).score := by
      rcases Nat.eq_zero_or_pos (Part003.analyzeCryptoMiningIndicators content).score with h0 | h0
      · rw [(p3_score_zero_iff content).mp h0] at hlen
        simp at hlen
      · exact h0
    have hcases := severityOfScore_cases (Part003.analyzeCryptoMiningIndicators content).score
    refine ⟨by rw [hscore]; exact hpos, ?_, ?_, ?_, ?_⟩
    · intro hgt
      rw [hsev]
      exact hcases.1 (by rw [hscore] at hgt; exact hgt)
    · intro hgt hle
      rw [hsev]
      rw [hscore] at hgt hle
      exact hcases.2.1 hgt hle
    · intro _ hle
      rw [hsev]
      rw [hscore] at hle
      exact hcases.2.2 hle
    · intro dets c hz
      exact itemStep_score_zero "Exchange Online" "Email" dets c hz

/-- The detection that the comprehensive scan loop produces for the single
message `"xmrig"`. -/
def xmrigDetection : Detection :=
  { id := 1, severity := Severity.LOW, source := "Exchange Online",
    itemType := "Email", score := 8, content := "xmrig...",
    «matches» := [⟨"xmrig", "MinerSoftware", 8⟩] }

/-- C2 witness: the single message `"xmrig"` produces exactly `xmrigDetection`
(id 1, score 8, severity LOW), and the theorem's conclusions hold of it. -/
theorem c2_witness :
    0 < xmrigDetection.score
    ∧ (70 < xmrigDetection.score → xmrigDetection.severity = Severity.HIGH)
    ∧ (40 < xmrigDetection.score → xmrigDetection.score ≤ 70 →
        xmrigDetection.severity = Severity.MEDIUM)
    ∧ (0 < xmrigDetection.score → xmrigDetection.score ≤ 40 →
        xmrigDetection.severity = Severity.LOW)
    ∧ (∀ (dets : List Detection) (content : String),
        (Part003.analyzeCryptoMiningIndicators content).score = 0 →
        Part003.emailStep dets content = dets) :=
  c2_severity_mapping ["xmrig"] xmrigDetection (by set_option maxRecDepth 10000 in decide)

/-- C4: a completed ScanResult of either implementation satisfies
`summary.total = summary.high + summary.medium + summary.low` and
`summary.total = detections.length`. -/
theorem c4_summary_invariant (authResult : AuthResult) (tenant : String)
    (options : O365ScanOptions) (emailFetch : Except String (List String))
    (auth2 : AuthResult) (tenant2 : String) (options2 : O365ScanOptions)
    (h1 : (Part003.scanO365Tenant authResult tenant options emailFetch).status
        = ScanStatus.completed)
    (h2 : (Scanner.scanO365Tenant auth2 tenant2 options2).status
        = ScanStatus.completed) :
    ((Part003.scanO365Tenant authResult tenant options emailFetch).summary.total
        = (Part003.scanO365Tenant authResult tenant options emailFetch).summary.high
          + (Part003.scanO365Tenant authResult tenant options emailFetch).summary.medium
          + (Part003.scanO365Tenant authResult tenant options emailFetch).summary.low
      ∧ (Part003.scanO365Tenant authResult tenant options emailFetch).summary.total
        = (Part003.scanO365Tenant authResult tenant options emailFetch).detections.length)
    ∧ ((Scanner.scanO365Tenant auth2 tenant2 options2).summary.total
        = (Scanner.scanO365Tenant auth2 tenant2 options2).summary.high
          + (Scanner.scanO365Tenant auth2 tenant2 options2).summary.medium
          + (Scanner.scanO365Tenant auth2 tenant2 options2).summary.low
      ∧ (Scanner.scanO365Tenant auth2 tenant2 options2).summary.total
        = (Scanner.scanO365Tenant auth2 tenant2 options2).detections.length) := by
  constructor
  · unfold Part003.scanO365Tenant
    split
    · exact ⟨rfl, rfl⟩
    · exact ⟨(summarize_partition _).1, (summarize_partition _).2⟩
  · unfold Scanner.scanO365Tenant
    split
    · exact ⟨rfl, rfl⟩
    · exact ⟨(summarize_partition _).1, (summarize_partition _).2⟩

/-- C4 witness: both scans complete at a successfully authenticated input and
the summary partition invariants hold there. -/
theorem c4_witness :
    ((Part003.scanO365Tenant ⟨true, some "tok", none, none⟩ "t1" {} (.ok ["xmrig"])).summary.total
        = (Part003.scanO365Tenant ⟨true, some "tok", none, none⟩ "t1" {} (.ok ["xmrig"])).summary.high
          + (Part003.scanO365Tenant ⟨true, some "tok", none, none⟩ "t1" {} (.ok ["xmrig"])).summary.medium
          + (Part003.scanO365Tenant ⟨true, some "tok", none, none⟩ "t1" {} (.ok ["xmrig"])).summary.low
      ∧ (Part003.scanO365Tenant ⟨true, some "tok", none, none⟩ "t1" {} (.ok ["xmrig"])).summary.total
        = (Part003.scanO365Tenant ⟨true, some "tok", none, none⟩ "t1" {} (.ok ["xmrig"])).detections.length)
    ∧ ((Scanner.scanO365Tenant ⟨true, some "tok", none, none⟩ "t2" {}).summary.total
        = (Scanner.scanO365Tenant ⟨true, some "tok", none, none⟩ "t2" {}).summary.high
          + (Scanner.scanO365Tenant ⟨true, some "tok", none, none⟩ "t2" {}).summary.medium
          + (Scanner.scanO365Tenant ⟨true, some "tok", none, none⟩ "t2" {}).summary.low
      ∧ (Scanner.scanO365Tenant ⟨true, some "tok", none, none⟩ "t2" {}).summary.total
        = (Scanner.scanO365Tenant ⟨true, some "tok", none, none⟩ "t2" {}).detections.length) :=
  c4_summary_invariant ⟨true, some "tok", none, none⟩ "t1" {} (.ok ["xmrig"])
    ⟨true, some "tok", none, none⟩ "t2" {} (by decide) (by decide)

/-- C5 (counterexample): with `includeEmail = false` the mock scan of
`scanner.ts` filters out the Exchange detections of the hard-coded list, and
the surviving detections keep their original ids `[2, 3, 4]` — the first
Detection of the returned list has id 2, not 1, so the ids are not a counter
starting at 1 for every combination of include flags. -/
theorem c5_counterexample :
    ((Scanner.scanO365Tenant ⟨true, some "token", none, none⟩ "tenant"
        { includeEmail := some false }).detections.map (fun d => d.id)) = [2, 3, 4]
    ∧ ((Scanner.scanO365Tenant ⟨true, some "token", none, none⟩ "tenant"
        { includeEmail := some false }).detections.head?).map (fun d => d.id)
        ≠ some 1 := by
  decide

/-- C5 (amended): Detection ids are unique and strictly increasing in
visitation order in every returned ScanResult of either implementation; in the
comprehensive implementation they are moreover the counter `1, ..., n` (the
first Detection has id 1), while in the mock implementation source filtering
can drop leading detections, so the first id can exceed 1. -/
theorem c5_detection_ids :
    (∀ (authResult : AuthResult) (tenant : String) (options : O365ScanOptions),
      List.Pairwise (· < ·)
        ((Scanner.scanO365Tenant authResult tenant options).detections.map (fun d => d.id)))
    ∧ (∀ (authResult : AuthResult) (tenant : String) (options : O365ScanOptions)
        (emailFetch : Except String (List String)),
      (Part003.scanO365Tenant authResult tenant options emailFetch).detections.map (fun d => d.id)
        = List.range' 1
            (Part003.scanO365Tenant authResult tenant options emailFetch).detections.length) := by
  constructor
  · intro a t o
    unfold Scanner.scanO365Tenant
    split
    · simp [failedResult]
    · simp only []
      apply pairwise_ids_ite
      apply pairwise_ids_ite
      apply pairwise_ids_ite
      apply pairwise_ids_ite
      decide
  · intro a t o f
    unfold Part003.scanO365Tenant
    split
    · simp [failedResult]
    · simp only []
      split
      · cases f with
        | error e => simp
        | ok messages => exact scanEmails_ids messages
      · simp

/-- C6: an unauthenticated (or token-less) scan short-circuits in every
implementation to the failed ScanResult — status `failed`, zero summary, no
detections, the non-empty error `Authentication required` — independently of
the fetch outcome, and the modelled aggregator requests no source. -/
theorem c6_auth_failure (authResult : AuthResult) (tenant : String)
    (h : authResult.authenticated = false ∨ tokenFalsy authResult.token = true) :
    (∀ (options : O365ScanOptions) (emailFetch : Except String (List String)),
        Part003.scanO365Tenant authResult tenant options emailFetch
          = failedResult tenant "Authentication required")
    ∧ (∀ options : O365ScanOptions,
        Scanner.scanO365Tenant authResult tenant options
          = failedResult tenant "Authentication required")
    ∧ (∀ sources : List ModelScan.SourceSpec,
        ModelScan.runScan authResult tenant sources
          = (failedResult tenant "Authentication required", []))
    ∧ (failedResult tenant "Authentication required").status = ScanStatus.failed
    ∧ (failedResult tenant "Authentication required").summary = ⟨0, 0, 0, 0⟩
    ∧ (failedResult tenant "Authentication required").detections = []
    ∧ (failedResult tenant "Authentication required").error = some "Authentication required"
    ∧ "Authentication required" ≠ "" := by
  have hc : (!authResult.authenticated || tokenFalsy authResult.token) = true := by
    rcases h with h | h <;> simp [h]
  refine ⟨?_, ?_, ?_, rfl, rfl, rfl, rfl, by decide⟩
  · intro o f
    simp [Part003.scanO365Tenant, hc]
  · intro o
    simp [Scanner.scanO365Tenant, hc]
  · intro sources
    simp [ModelScan.runScan, hc]

/-- C6 witness: the theorem applied to a concrete unauthenticated AuthResult. -/
theorem c6_witness :
    (∀ (options : O365ScanOptions) (emailFetch : Except String (List String)),
        Part003.scanO365Tenant ⟨false, none, none, none⟩ "contoso" options emailFetch
          = failedResult "contoso" "Authentication required")
    ∧ (∀ options : O365ScanOptions,
        Scanner.scanO365Tenant ⟨false, none, none, none⟩ "contoso" options
          = failedResult "contoso" "Authentication required")
    ∧ (∀ sources : List ModelScan.SourceSpec,
        ModelScan.runScan ⟨false, none, none, none⟩ "contoso" sources
          = (failedResult "contoso" "Authentication required", []))
    ∧ (failedResult "contoso" "Authentication required").status = ScanStatus.failed
    ∧ (failedResult "contoso" "Authentication required").summary = ⟨0, 0, 0, 0⟩
    ∧ (failedResult "contoso" "Authentication required").detections = []
    ∧ (failedResult "contoso" "Authentication required").error = some "Authentication required"
    ∧ "Authentication required" ≠ "" :=
  c6_auth_failure ⟨false, none, none, none⟩ "contoso" (Or.inl rfl)

/-- C7: when authentication succeeded and one source's fetch raises an error,
the scan still completes: the result's status is `completed`, its error field
is empty, and its detections and summary are exactly those of the same scan
without the failing source (the failing source contributes zero detections,
detections of the other sources are kept).  In the implemented Exchange-only
code path a failing fetch likewise yields a completed result with no error. -/
theorem c7_source_fetch_failure (authResult : AuthResult) (tenant : String)
    (pre post : List ModelScan.SourceSpec) (srcName srcItemType e : String)
    (h : (!authResult.authenticated || tokenFalsy authResult.token) = false) :
    (ModelScan.runScan authResult tenant
        (pre ++ ⟨srcName, srcItemType, true, .error e⟩ :: post)).1.status
      = ScanStatus.completed
    ∧ (ModelScan.runScan authResult tenant
        (pre ++ ⟨srcName, srcItemType, true, .error e⟩ :: post)).1.error = none
    ∧ (ModelScan.runScan authResult tenant
        (pre ++ ⟨srcName, srcItemType, true, .error e⟩ :: post)).1.detections
      = (ModelScan.runScan authResult tenant (pre ++ post)).1.detections
    ∧ (ModelScan.runScan authResult tenant
        (pre ++ ⟨srcName, srcItemType, true, .error e⟩ :: post)).1.summary
      = (ModelScan.runScan authResult tenant (pre ++ post)).1.summary
    ∧ (∀ (options : O365ScanOptions) (e2 : String),
        (Part003.scanO365Tenant authResult tenant options (.error e2)).status
            = ScanStatus.completed
        ∧ (Part003.scanO365Tenant authResult tenant options (.error e2)).detections = []
        ∧ (Part003.scanO365Tenant authResult tenant options (.error e2)).error = none) := by
  have hfold : ∀ init : List Detection,
      (pre ++ ⟨srcName, srcItemType, true, .error e⟩ :: post).foldl
        (fun dets src => if src.enabled then ModelScan.scanSource dets src else dets) init
      = (pre ++ post).foldl
        (fun dets src => if src.enabled then ModelScan.scanSource dets src else dets) init := by
    intro init
    rw [List.foldl_append, List.foldl_cons, List.foldl_append]
    rfl
  refine ⟨?_, ?_, ?_, ?_, ?_⟩
  · simp [ModelScan.runScan, h]
  · simp [ModelScan.runScan, h]
  · simp [ModelScan.runScan, h, hfold]
  · simp [ModelScan.runScan, h, hfold]
  · intro o e2
    refine ⟨?_, ?_, ?_⟩ <;> simp [Part003.scanO365Tenant, h]

/-- C7 witness: with a successful authentication, a failing SharePoint fetch
after a succeeding Exchange fetch leaves the Exchange detections in place and
the scan completed without error. -/
theorem c7_witness :
    (ModelScan.runScan ⟨true, some "tok", none, none⟩ "contoso"
        ([⟨"Exchange Online", "Email", true, .ok ["xmrig"]⟩]
          ++ ⟨"SharePoint Online", "Document", true, .error "network error"⟩ :: [])).1.status
      = ScanStatus.completed
    ∧ (ModelScan.runScan ⟨true, some "tok", none, none⟩ "contoso"
        ([⟨"Exchange Online", "Email", true, .ok ["xmrig"]⟩]
          ++ ⟨"SharePoint Online", "Document", true, .error "network error"⟩ :: [])).1.error = none
    ∧ (ModelScan.runScan ⟨true, some "tok", none, none⟩ "contoso"
        ([⟨"Exchange Online", "Email", true, .ok ["xmrig"]⟩]
          ++ ⟨"SharePoint Online", "Document", true, .error "network error"⟩ :: [])).1.detections
      = (ModelScan.runScan ⟨true, some "tok", none, none⟩ "contoso"
          ([⟨"Exchange Online", "Email", true, .ok ["xmrig"]⟩] ++ [])).1.detections
    ∧ (ModelScan.runScan ⟨true, some "tok", none, none⟩ "contoso"
        ([⟨"Exchange Online", "Email", true, .ok ["xmrig"]⟩]
          ++ ⟨"SharePoint Online", "Document", true, .error "network error"⟩ :: [])).1.summary
      = (ModelScan.runScan ⟨true, some "tok", none, none⟩ "contoso"
          ([⟨"Exchange Online", "Email", true, .ok ["xmrig"]⟩] ++ [])).1.summary
    ∧ (∀ (options : O365ScanOptions) (e2 : String),
        (Part003.scanO365Tenant ⟨true, some "tok", none, none⟩ "contoso" options (.error e2)).status
            = ScanStatus.completed
        ∧ (Part003.scanO365Tenant ⟨true, some "tok", none, none⟩ "contoso" options (.error e2)).detections = []
        ∧ (Part003.scanO365Tenant ⟨true, some "tok", none, none⟩ "contoso" options (.error e2)).error = none) :=
  c7_source_fetch_failure ⟨true, some "tok", none, none⟩ "contoso"
    [⟨"Exchange Online", "Email", true, .ok ["xmrig"]⟩] []
    "SharePoint Online" "Document" "network error" (by decide)

/-- C9: with successful authentication and all four include flags false, no
source is requested from the content provider (the modelled aggregator's
request log is empty and the implemented scan's result does not depend on the
fetch at all), and the result carries no detections and total 0; the mock scan
likewise returns no detections. -/
theorem c9_all_sources_disabled (authResult : AuthResult) (tenant : String)
    (options : O365ScanOptions)
    (h : (!authResult.authenticated || tokenFalsy authResult.token) = false)
    (hE : options.includeEmail = some false)
    (hS : options.includeSharePoint = some false)
    (hO : options.includeOneDrive = some false)
    (hT : options.includeTeams = some false)
    (fE fS fO fT : Except String (List String)) :
    (ModelScan.runScanO365 authResult tenant options fE fS fO fT).2 = []
    ∧ (ModelScan.runScanO365 authResult tenant options fE fS fO fT).1.detections = []
    ∧ (ModelScan.runScanO365 authResult tenant options fE fS fO fT).1.summary.total = 0
    ∧ (∀ f1 f2 : Except String (List String),
        Part003.scanO365Tenant authResult tenant options f1
          = Part003.scanO365Tenant authResult tenant options f2)
    ∧ (Part003.scanO365Tenant authResult tenant options fE).detections = []
    ∧ (Part003.scanO365Tenant authResult tenant options fE).summary.total = 0
    ∧ (Scanner.scanO365Tenant authResult tenant options).detections = []
    ∧ (Scanner.scanO365Tenant authResult tenant options).summary.total = 0 := by
  refine ⟨?_, ?_, ?_, ?_, ?_, ?_, ?_, ?_⟩
  · simp [ModelScan.runScanO365, ModelScan.runScan, ModelScan.o365Sources, h, hE, hS, hO, hT]
  · simp [ModelScan.runScanO365, ModelScan.runScan, ModelScan.o365Sources, h, hE, hS, hO, hT]
  · simp [ModelScan.runScanO365, ModelScan.runScan, ModelScan.o365Sources, h, hE, hS, hO, hT,
      summarize]
  · intro f1 f2
    simp [Part003.scanO365Tenant, h, hE]
  · simp [Part003.scanO365Tenant, h, hE]
  · simp [Part003.scanO365Tenant, h, hE, summarize]
  · simp [Scanner.scanO365Tenant, h, hE, hS, hO, hT]
    decide
  · simp [Scanner.scanO365Tenant, h, hE, hS, hO, hT]
    decide

/-- C9 witness: the theorem at a concrete authenticated input with all four
include flags false. -/
theorem c9_witness :
    (ModelScan.runScanO365 ⟨true, some "tok", none, none⟩ "contoso"
        { includeEmail := some false, includeSharePoint := some false,
          includeOneDrive := some false, includeTeams := some false }
        (.ok ["xmrig"]) (.ok []) (.ok []) (.ok [])).2 = []
    ∧ (ModelScan.runScanO365 ⟨true, some "tok", none, none⟩ "contoso"
        { includeEmail := some false, includeSharePoint := some false,
          includeOneDrive := some false, includeTeams := some false }
        (.ok ["xmrig"]) (.ok []) (.ok []) (.ok [])).1.detections = []
    ∧ (ModelScan.runScanO365 ⟨true, some "tok", none, none⟩ "contoso"
        { includeEmail := some false, includeSharePoint := some false,
          includeOneDrive := some false, includeTeams := some false }
        (.ok ["xmrig"]) (.ok []) (.ok []) (.ok [])).1.summary.total = 0
    ∧ (∀ f1 f2 : Except String (List String),
        Part003.scanO365Tenant ⟨true, some "tok", none, none⟩ "contoso"
          { includeEmail := some false, includeSharePoint := some false,
            includeOneDrive := some false, includeTeams := some false } f1
          = Part003.scanO365Tenant ⟨true, some "tok", none, none⟩ "contoso"
            { includeEmail := some false, includeSharePoint := some false,
              includeOneDrive := some false, includeTeams := some false } f2)
    ∧ (Part003.scanO365Tenant ⟨true, some "tok", none, none⟩ "contoso"
        { includeEmail := some false, includeSharePoint := some false,
          includeOneDrive := some false, includeTeams := some false }
        (.ok ["xmrig"])).detections = []
    ∧ (Part003.scanO365Tenant ⟨true, some "tok", none, none⟩ "contoso"
        { includeEmail := some false, includeSharePoint := some false,
          includeOneDrive := some false, includeTeams := some false }
        (.ok ["xmrig"])).summary.total = 0
    ∧ (Scanner.scanO365Tenant ⟨true, some "tok", none, none⟩ "contoso"
        { includeEmail := some false, includeSharePoint := some false,
          includeOneDrive := some false, includeTeams := some false }).detections = []
    ∧ (Scanner.scanO365Tenant ⟨true, some "tok", none, none⟩ "contoso"
        { includeEmail := some false, includeSharePoint := some false,
          includeOneDrive := some false, includeTeams := some false }).summary.total = 0 :=
  c9_all_sources_disabled ⟨true, some "tok", none, none⟩ "contoso"
    { includeEmail := some false, includeSharePoint := some false,
      includeOneDrive := some false, includeTeams := some false }
    (by decide) rfl rfl rfl rfl (.ok ["xmrig"]) (.ok []) (.ok []) (.ok [])
